import Mathlib

/-!
Verification development for the catoscim SDK (catoscim.py), a client for the
SCIM v2.0 provisioning protocol. The Python class CatoSCIM is shallow-embedded
here: the network is modelled by an oracle from requests to outcomes, the
mutable call counter becomes explicit state passing, JSON values become an
inductive type, and code paths that raise uncaught Python exceptions are
reflected as explicit exceptional results rather than returned tuples.
-/

/-- JSON values as produced by json.loads. Numbers are modelled as integers
(all numeric fields relevant here, such as totalResults and HTTP status codes,
are integral); object fields are kept in insertion order, and objects produced
by json.loads have pairwise distinct keys. -/
inductive JSON where
  | null
  | bool (b : Bool)
  | num (n : Int)
  | str (s : String)
  | arr (elems : List JSON)
  | obj (fields : List (String × JSON))
deriving Repr

mutual

/-- Boolean structural equality on JSON values. -/
def JSON.beq : JSON → JSON → Bool
  | .null, .null => true
  | .bool a, .bool b => a == b
  | .num a, .num b => a == b
  | .str a, .str b => a == b
  | .arr xs, .arr ys => JSON.beqList xs ys
  | .obj xs, .obj ys => JSON.beqFields xs ys
  | _, _ => false

/-- Boolean equality on JSON arrays. -/
def JSON.beqList : List JSON → List JSON → Bool
  | [], [] => true
  | x :: xs, y :: ys => JSON.beq x y && JSON.beqList xs ys
  | _, _ => false

/-- Boolean equality on JSON object field lists. -/
def JSON.beqFields : List (String × JSON) → List (String × JSON) → Bool
  | [], [] => true
  | (k, v) :: xs, (k2, v2) :: ys => k == k2 && JSON.beq v v2 && JSON.beqFields xs ys
  | _, _ => false

end

mutual

/-- Reflection of JSON.beq into propositional equality. -/
def JSON.beq_iff : (a b : JSON) → (JSON.beq a b = true ↔ a = b)
  | .null, .null => by simp [JSON.beq]
  | .bool a, .bool b => by simp [JSON.beq]
  | .num a, .num b => by simp [JSON.beq]
  | .str a, .str b => by simp [JSON.beq]
  | .arr xs, .arr ys => by
      simp only [JSON.beq, JSON.beqList_iff xs ys, JSON.arr.injEq]
  | .obj xs, .obj ys => by
      simp only [JSON.beq, JSON.beqFields_iff xs ys, JSON.obj.injEq]
  | .null, .bool _ | .null, .num _ | .null, .str _ | .null, .arr _ | .null, .obj _
  | .bool _, .null | .bool _, .num _ | .bool _, .str _ | .bool _, .arr _ | .bool _, .obj _
  | .num _, .null | .num _, .bool _ | .num _, .str _ | .num _, .arr _ | .num _, .obj _
  | .str _, .null | .str _, .bool _ | .str _, .num _ | .str _, .arr _ | .str _, .obj _
  | .arr _, .null | .arr _, .bool _ | .arr _, .num _ | .arr _, .str _ | .arr _, .obj _
  | .obj _, .null | .obj _, .bool _ | .obj _, .num _ | .obj _, .str _ | .obj _, .arr _ => by
      simp [JSON.beq]

/-- Reflection of JSON.beqList into propositional equality. -/
def JSON.beqList_iff : (xs ys : List JSON) → (JSON.beqList xs ys = true ↔ xs = ys)
  | [], [] => by simp [JSON.beqList]
  | x :: xs, y :: ys => by
      simp [JSON.beqList, JSON.beq_iff x y, JSON.beqList_iff xs ys]
  | [], _ :: _ => by simp [JSON.beqList]
  | _ :: _, [] => by simp [JSON.beqList]

/-- Reflection of JSON.beqFields into propositional equality. -/
def JSON.beqFields_iff : (xs ys : List (String × JSON)) →
    (JSON.beqFields xs ys = true ↔ xs = ys)
  | [], [] => by simp [JSON.beqFields]
  | (k, v) :: xs, (k2, v2) :: ys => by
      simp [JSON.beqFields, JSON.beq_iff v v2, JSON.beqFields_iff xs ys]
  | [], _ :: _ => by simp [JSON.beqFields]
  | _ :: _, [] => by simp [JSON.beqFields]

end

instance : DecidableEq JSON := fun a b =>
  decidable_of_iff (JSON.beq a b = true) (JSON.beq_iff a b)

/-- Field lookup in a JSON object field list, first match wins (json.loads
objects have distinct keys, so first match is the only match). -/
def JSON.lookupField : List (String × JSON) → String → Option JSON
  | [], _ => none
  | (k, v) :: rest, key => if k = key then some v else JSON.lookupField rest key

/-- Python subscript response[key]: some value on a dict containing the key;
none models the uncaught exception Python raises otherwise (KeyError on a dict
missing the key, TypeError on non-dict values). -/
def JSON.get : JSON → String → Option JSON
  | .obj fields, key => JSON.lookupField fields key
  | _, _ => none

/-- Python iteration over response["Resources"], as used by the pagination
for-loops: a list yields its elements; a string yields its characters as
one-character strings; a dict yields its keys; numbers, booleans and null are
not iterable and have no len(), modelled as none (uncaught TypeError). -/
def JSON.pyElems : JSON → Option (List JSON)
  | .arr xs => some xs
  | .str s => some (s.data.map (fun c => JSON.str (String.singleton c)))
  | .obj fields => some (fields.map (fun f => JSON.str f.1))
  | _ => none

/-- One HTTP request as constructed by CatoSCIM.send (catoscim.py lines
148-153): method, path appended to the base URL, and the optional JSON body
(request_data, serialised by json.dumps in the source). -/
structure Request where
  method : String
  path : String
  body : Option JSON
deriving Repr, DecidableEq

/-- The body of a transport-successful (2xx) HTTP response, at the granularity
send observes: empty (b, as returned by DELETE), a body that json.loads decodes
to a JSON value, or a body on which json.loads raises. -/
inductive RespBody where
  | empty
  | json (j : JSON)
  | malformed
deriving Repr, DecidableEq

/-- Outcome of one attempt at the network phase of CatoSCIM.send (catoscim.py
lines 147-166), modelling the remote service and transport as an oracle:
constructError is an exception raised by urllib.request.Request construction
itself, before the call counter increment on line 154 (for example ValueError
for a base URL without a scheme); httpError is urllib HTTPError with status
code and the response body already decoded as UTF-8 with replacement (which
never raises); urlError is urllib URLError with a reason and the stringified
exception; otherError is any other exception raised between the counter
increment and the completion of response.read(); success carries the bytes
read from a 2xx response. -/
inductive NetOutcome where
  | constructError (msg : String)
  | httpError (code : Int) (body : String)
  | urlError (reason : String) (msg : String)
  | otherError (msg : String)
  | success (body : RespBody)
deriving Repr, DecidableEq

/-- What a call to CatoSCIM.send produces for its caller: a normally returned
(success flag, payload) tuple, or an uncaught exception propagating out of
send (raised). -/
inductive SendResult where
  | ret (ok : Bool) (payload : JSON)
  | raised (msg : String)
deriving Repr, DecidableEq

/-- The network environment: which NetOutcome each issued request meets. -/
def NetEnv : Type := Request → NetOutcome

namespace CatoSCIM

/-- CatoSCIM.send (catoscim.py lines 113-179). State passing makes
self.call_count explicit: the input cc is the counter before the call and the
returned Nat is the counter after it. The increment on line 154 sits after
urllib.request.Request construction (lines 148-153) and before urlopen, so a
construction failure is caught by the generic except clause (line 173) without
incrementing, while every later outcome, failed or not, follows the increment.
HTTPError gives (False, status and body) per lines 167-169; URLError gives
(False, reason and message) per lines 170-172; any other exception inside the
try gives (False, message) per lines 173-175. On transport success an empty
body is replaced by the literal bytes of an empty JSON object (lines 177-178)
and the body is passed to json.loads on line 179, which is outside the
try/except: a body that does not parse as JSON makes send raise
json.JSONDecodeError to its caller, modelled by SendResult.raised. -/
def send (env : NetEnv) (cc : Nat) (req : Request) : Nat × SendResult :=
  match env req with
  | .constructError msg => (cc, .ret false (.obj [("error", .str msg)]))
  | .httpError code body =>
      (cc + 1, .ret false (.obj [("status", .num code), ("error", .str body)]))
  | .urlError reason msg =>
      (cc + 1, .ret false (.obj [("reason", .str reason), ("error", .str msg)]))
  | .otherError msg => (cc + 1, .ret false (.obj [("error", .str msg)]))
  | .success .empty => (cc + 1, .ret true (.obj []))
  | .success (.json j) => (cc + 1, .ret true j)
  | .success .malformed => (cc + 1, .raised "JSONDecodeError: Expecting value")

/-- Whether a network outcome reaches the call counter increment on line 154:
every outcome does except a failure of request construction itself. -/
def bumpsCounter : NetOutcome → Bool
  | .constructError _ => false
  | _ => true

end CatoSCIM

/-- The client state set up by CatoSCIM.__init__ (catoscim.py lines 58-108):
resolved base URL and token, the SSL verification flag, and the call counter
initialised to 0 on line 87. -/
structure Client where
  baseurl : String
  token : String
  verify_ssl : Bool
  call_count : Nat
deriving Repr, DecidableEq

/-- Python expression a or b over an optional string a (an explicit argument
that may be None) and an optional string b (os.environ.get result): returns a
when a is truthy (a non-empty string), otherwise b verbatim. -/
def pyOr (a b : Option String) : Option String :=
  match a with
  | some s => if s = "" then b else some s
  | none => b

/-- Python truthiness of an optional string: None and the empty string are
falsy, every other string is truthy. -/
def pyTruthy : Option String → Bool
  | none => false
  | some s => s ≠ ""

namespace CatoSCIM

/-- CatoSCIM.__init__ (catoscim.py lines 78-87). baseurl and token are the
explicit constructor arguments (none models Python None); envUrl and envToken
are the values of the CATO_SCIM_URL and CATO_SCIM_TOKEN environment variables
(none models an unset variable). Line 78 resolves the base URL by Python or,
line 79 the token; lines 81-84 raise ValueError, base URL checked first, when
the resolved value is falsy; otherwise lines 86-87 set verify_ssl and
call_count = 0. The function is pure: no request is issued during
construction. -/
def init (baseurl token envUrl envToken : Option String)
    (verify_ssl : Bool := true) : Except String Client :=
  let b := pyOr baseurl envUrl
  let t := pyOr token envToken
  if pyTruthy b = false then
    .error "SCIM URL must be provided either as parameter or via CATO_SCIM_URL environment variable"
  else if pyTruthy t = false then
    .error "SCIM token must be provided either as parameter or via CATO_SCIM_TOKEN environment variable"
  else
    .ok ⟨b.getD "", t.getD "", verify_ssl, 0⟩

end CatoSCIM

/-- The characters of string.ascii_letters ++ string.digits, the population
from which create_user draws password characters (catoscim.py line 283):
52 ASCII letters followed by 10 digits, 62 characters in all. -/
def passwordAlphabet : List Char :=
  ("abcdefghijklmnopqrstuvwxyzABCDEFGHIJKLMNOPQRSTUVWXYZ0123456789").data

namespace CatoSCIM

/-- The password-generation loop of create_user (catoscim.py lines 280-283):
ten iterations, each appending one character chosen from passwordAlphabet.
The choice oracle models secrets.choice, the cryptographically secure
selection the source calls once per iteration; choice i is the index picked
at iteration i. -/
def genPassword (choice : Nat → Fin 62) : String :=
  String.mk ((List.range 10).map (fun i =>
    passwordAlphabet.get ((choice i).cast (by rfl))))

/-- The request POSTed by create_user (catoscim.py lines 268-314): the SCIM
User body with the supplied password, or with a generated one when the
password argument is omitted (None). -/
def create_user_request (email givenName familyName externalId : String)
    (password : Option String) (active : Bool) (choice : Nat → Fin 62) : Request :=
  ⟨"POST", "/Users", some (.obj [
    ("schemas", .arr [.str "urn:ietf:params:scim:schemas:core:2.0:User"]),
    ("userName", .str email),
    ("name", .obj [("givenName", .str givenName), ("familyName", .str familyName)]),
    ("emails", .arr [.obj [("primary", .bool true), ("value", .str email)]]),
    ("externalId", .str externalId),
    ("password", .str (match password with
      | none => genPassword choice
      | some p => p)),
    ("active", .bool active)])⟩

/-- CatoSCIM.create_user: builds the user body and delegates to send. -/
def create_user (email givenName familyName externalId : String)
    (password : Option String) (active : Bool) (choice : Nat → Fin 62)
    (env : NetEnv) (cc : Nat) : Nat × SendResult :=
  send env cc (create_user_request email givenName familyName externalId
    password active choice)

end CatoSCIM

/-- The SCIM PatchOp body shared by add_members, remove_members and
rename_group (catoscim.py lines 205-216, 529-540, 561-572): the PatchOp schema
URN and an Operations array holding exactly one operation. -/
def patchOpBody (op path : String) (value : JSON) : JSON :=
  .obj [("schemas", .arr [.str "urn:ietf:params:scim:api:messages:2.0:PatchOp"]),
        ("Operations", .arr [.obj [("op", .str op), ("path", .str path), ("value", value)]])]

namespace CatoSCIM

/-- CatoSCIM.add_members (catoscim.py lines 182-221): one PATCH to
/Groups/groupid with a single add operation on members, the send result
returned verbatim. -/
def add_members (groupid : String) (members : JSON) (env : NetEnv) (cc : Nat) :
    Nat × SendResult :=
  send env cc ⟨"PATCH", "/Groups/" ++ groupid, some (patchOpBody "add" "members" members)⟩

/-- CatoSCIM.remove_members (catoscim.py lines 506-545): one PATCH to
/Groups/groupid with a single remove operation on members. -/
def remove_members (groupid : String) (members : JSON) (env : NetEnv) (cc : Nat) :
    Nat × SendResult :=
  send env cc ⟨"PATCH", "/Groups/" ++ groupid, some (patchOpBody "remove" "members" members)⟩

/-- CatoSCIM.rename_group (catoscim.py lines 548-577): one PATCH to
/Groups/groupid with a single replace operation on displayName. -/
def rename_group (groupid : String) (new_name : String) (env : NetEnv) (cc : Nat) :
    Nat × SendResult :=
  send env cc ⟨"PATCH", "/Groups/" ++ groupid,
    some (patchOpBody "replace" "displayName" (.str new_name))⟩

/-- CatoSCIM.get_user (catoscim.py lines 460-467): GET /Users/userid. -/
def get_user (userid : String) (env : NetEnv) (cc : Nat) : Nat × SendResult :=
  send env cc ⟨"GET", "/Users/" ++ userid, none⟩

/-- CatoSCIM.get_group (catoscim.py lines 414-421): GET /Groups/groupid. -/
def get_group (groupid : String) (env : NetEnv) (cc : Nat) : Nat × SendResult :=
  send env cc ⟨"GET", "/Groups/" ++ groupid, none⟩

/-- CatoSCIM.disable_user (catoscim.py lines 327-334): DELETE /Users/userid. -/
def disable_user (userid : String) (env : NetEnv) (cc : Nat) : Nat × SendResult :=
  send env cc ⟨"DELETE", "/Users/" ++ userid, none⟩

end CatoSCIM

/-- Uppercase hexadecimal digit for a value below 16, as used by
urllib.parse.quote percent-escapes. -/
def hexUpper (n : Nat) : Char :=
  if n < 10 then Char.ofNat (48 + n) else Char.ofNat (55 + n)

/-- UTF-8 encoding of one character as byte values, as urllib.parse.quote
encodes its input before escaping. -/
def utf8Bytes (c : Char) : List Nat :=
  let n := c.toNat
  if n < 128 then [n]
  else if n < 2048 then [192 + n / 64, 128 + n % 64]
  else if n < 65536 then [224 + n / 4096, 128 + (n / 64) % 64, 128 + n % 64]
  else [240 + n / 262144, 128 + (n / 4096) % 64, 128 + (n / 64) % 64, 128 + n % 64]

/-- urllib.parse.quote treatment of one byte: kept verbatim when it is an
ASCII letter, digit, one of the always-safe characters underscore, dot,
hyphen, tilde, or the default-safe slash; otherwise a percent-escape with
uppercase hex digits. -/
def quoteByte (b : Nat) : String :=
  let c := Char.ofNat b
  if c.isAlphanum || c == '_' || c == '.' || c == '-' || c == '~' || c == '/' then
    String.singleton c
  else
    "%" ++ String.singleton (hexUpper (b / 16)) ++ String.singleton (hexUpper (b % 16))

/-- urllib.parse.quote with default arguments, as called by find_users and
find_group (catoscim.py lines 350 and 391) on their filter expressions. -/
def pyQuote (s : String) : String :=
  String.join (s.data.map (fun c => String.join ((utf8Bytes c).map quoteByte)))

/-- Outcome of one paginated operation for its caller: a normally returned
(success flag, payload) tuple, an uncaught exception propagating out of the
operation, or divergence (the while-loop never reaching its stop condition,
modelled as fuel exhaustion). -/
inductive PagedResult where
  | ret (ok : Bool) (payload : JSON)
  | exn (msg : String)
  | diverge
deriving Repr, DecidableEq

/-- Full observable behaviour of one paginated operation: its result, the call
counter after it, and the requests it issued in order. -/
structure PagedOut where
  result : PagedResult
  callCount : Nat
  trace : List Request
deriving Repr, DecidableEq

namespace CatoSCIM

/-- The pagination while-loop shared verbatim by get_users (catoscim.py lines
470-503), get_groups (424-457), find_users (373-411) and find_group (337-370);
the four differ only in the path they build, abstracted as pathAt applied to
the startIndex, which the source always sets to the current accumulator
length. Each iteration sends a GET; an exception out of send propagates; a
(False, response) result is returned immediately, discarding the accumulator;
on (True, response) the debug log line evaluates response["Resources"], then
len() of it, then response["totalResults"] (uncaught KeyError or TypeError
when absent or ill-typed, modelled as exn); the elements of
response["Resources"] are then appended to the accumulator and the loop stops
with (True, accumulator) once the accumulator length is at least
response["totalResults"], an uncaught TypeError when that value is not a
number. The source loop has no iteration cap; fuel only bounds the model,
with exhaustion marking divergence. -/
def pagedLoop (env : NetEnv) (pathAt : Nat → String) :
    Nat → Nat → List JSON → PagedOut
  | 0, cc, _ => ⟨.diverge, cc, []⟩
  | fuel + 1, cc, acc =>
    let req : Request := ⟨"GET", pathAt acc.length, none⟩
    match CatoSCIM.send env cc req with
    | (cc2, .raised msg) => ⟨.exn msg, cc2, [req]⟩
    | (cc2, .ret false payload) => ⟨.ret false payload, cc2, [req]⟩
    | (cc2, .ret true response) =>
      match response.get "Resources" with
      | none => ⟨.exn "KeyError: Resources", cc2, [req]⟩
      | some rs =>
        match rs.pyElems with
        | none => ⟨.exn "TypeError: object of this type has no len()", cc2, [req]⟩
        | some items =>
          match response.get "totalResults" with
          | none => ⟨.exn "KeyError: totalResults", cc2, [req]⟩
          | some tr =>
            let acc2 := acc ++ items
            match tr with
            | .num n =>
              if n ≤ (acc2.length : Int) then ⟨.ret true (.arr acc2), cc2, [req]⟩
              else
                let rest := pagedLoop env pathAt fuel cc2 acc2
                ⟨rest.result, rest.callCount, req :: rest.trace⟩
            | _ => ⟨.exn "TypeError: not comparable with int", cc2, [req]⟩

end CatoSCIM

/-- Path built by get_users (catoscim.py line 484) for a given startIndex. -/
def usersPathAt (s : Nat) : String := "/Users?startIndex=" ++ toString s

/-- Path built by get_groups (catoscim.py line 438) for a given startIndex. -/
def groupsPathAt (s : Nat) : String := "/Groups?startIndex=" ++ toString s

/-- Path built by find_users (catoscim.py lines 391-392): the percent-encoded
filter expression and the startIndex. -/
def findUsersPathAt (field value : String) (s : Nat) : String :=
  "/Users?filter=" ++ pyQuote (field ++ " eq \"" ++ value ++ "\"") ++
    "&startIndex=" ++ toString s

/-- Path built by find_group (catoscim.py lines 350-351): the percent-encoded
displayName filter and the startIndex. -/
def findGroupPathAt (displayName : String) (s : Nat) : String :=
  "/Groups?filter=" ++ pyQuote ("displayName eq \"" ++ displayName ++ "\"") ++
    "&startIndex=" ++ toString s

namespace CatoSCIM

/-- CatoSCIM.get_users (catoscim.py lines 470-503). -/
def get_users (env : NetEnv) (fuel cc : Nat) : PagedOut :=
  pagedLoop env usersPathAt fuel cc []

/-- CatoSCIM.get_groups (catoscim.py lines 424-457). -/
def get_groups (env : NetEnv) (fuel cc : Nat) : PagedOut :=
  pagedLoop env groupsPathAt fuel cc []

/-- CatoSCIM.find_users (catoscim.py lines 373-411). -/
def find_users (field value : String) (env : NetEnv) (fuel cc : Nat) : PagedOut :=
  pagedLoop env (findUsersPathAt field value) fuel cc []

/-- CatoSCIM.find_group (catoscim.py lines 337-370). -/
def find_group (displayName : String) (env : NetEnv) (fuel cc : Nat) : PagedOut :=
  pagedLoop env (findGroupPathAt displayName) fuel cc []

end CatoSCIM

/-- The page a backend holding the given item list serves for a request at the
given startIndex, when it sends items in order in pages of size pageSize and
consistently reports the full collection size as totalResults. -/
def pageObj (items : List JSON) (pageSize s : Nat) : JSON :=
  .obj [("Resources", .arr ((items.drop s).take pageSize)),
        ("totalResults", .num items.length)]

/-- Number of page requests the pagination loop issues against a consistent
backend with total items and pages of size pageSize: one request when the
collection is empty, otherwise the number of pages rounded up. -/
def pagesNeeded (total pageSize : Nat) : Nat :=
  if total = 0 then 1 else (total + pageSize - 1) / pageSize

/-- Error payload send pairs with a False flag for a given network outcome,
when it fails (catoscim.py lines 167-175); none for transport successes. -/
def sendErrorPayload : NetOutcome → Option JSON
  | .constructError msg => some (.obj [("error", .str msg)])
  | .httpError code body => some (.obj [("status", .num code), ("error", .str body)])
  | .urlError reason msg => some (.obj [("reason", .str reason), ("error", .str msg)])
  | .otherError msg => some (.obj [("error", .str msg)])
  | .success _ => none

/-- A network environment is page-well-formed when every transport-successful
response it produces is a JSON object carrying a Resources key holding an
array and a totalResults key holding a number: the precondition under which
the pagination loop never lets an exception escape. -/
def PageWellFormed (env : NetEnv) : Prop :=
  ∀ req b, env req = .success b →
    ∃ j xs n, b = .json j ∧ j.get "Resources" = some (.arr xs) ∧
      j.get "totalResults" = some (.num n)

/-- genPassword restricted to its first ten choices, the only ones it reads:
used to count colliding pairs of choice vectors. -/
def genPasswordVec (v : Fin 10 → Fin 62) : String :=
  CatoSCIM.genPassword (fun i => if h : i < 10 then v ⟨i, h⟩ else ⟨0, by norm_num⟩)

/-- Concrete scenario: a service whose every response has an empty body. -/
def envEmptyBodyW : NetEnv := fun _ => .success .empty

/-- Concrete scenario: a service answering every request with one user object. -/
def envUserObjW : NetEnv := fun _ => .success (.json (.obj [("id", .str "u1")]))

/-- Concrete scenario: every request meets HTTP 404 with a plain text body. -/
def env404W : NetEnv := fun _ => .httpError 404 "Not Found"

/-- Concrete scenario: every request meets HTTP 500. -/
def envFail500W : NetEnv := fun _ => .httpError 500 "Internal Server Error"

/-- Concrete scenario: transport succeeds but the body is not valid JSON. -/
def envMalformedW : NetEnv := fun _ => .success .malformed

/-- Concrete scenario: request construction itself raises, as for a base URL
without a scheme, where urllib raises ValueError before line 154 runs. -/
def envConstructFailW : NetEnv := fun _ => .constructError "unknown url type: abc/Users"

/-- Concrete scenario: urlopen raises a non-HTTP, non-URLError exception. -/
def envBoomW : NetEnv := fun _ => .otherError "connection closed unexpectedly"

/-- Concrete choice oracle taking the first alphabet character every time. -/
def choiceZeroW : Nat → Fin 62 := fun _ => ⟨0, by norm_num⟩

/-- Concrete collection of three users for pagination scenarios. -/
def itemsW : List JSON := [.str "u1", .str "u2", .str "u3"]

/-- Concrete backend serving itemsW to get_users in pages of size two. -/
def envUsersW : NetEnv := fun req =>
  if req = ⟨"GET", usersPathAt 0, none⟩ then .success (.json (pageObj itemsW 2 0))
  else if req = ⟨"GET", usersPathAt 2, none⟩ then .success (.json (pageObj itemsW 2 2))
  else .otherError "unexpected request"

/-- Concrete backend serving itemsW to get_groups in pages of size two. -/
def envGroupsW : NetEnv := fun req =>
  if req = ⟨"GET", groupsPathAt 0, none⟩ then .success (.json (pageObj itemsW 2 0))
  else if req = ⟨"GET", groupsPathAt 2, none⟩ then .success (.json (pageObj itemsW 2 2))
  else .otherError "unexpected request"

/-- Concrete backend serving itemsW to find_users for one filter query. -/
def envFindUsersW : NetEnv := fun req =>
  if req = ⟨"GET", findUsersPathAt "email" "a@b.c" 0, none⟩ then
    .success (.json (pageObj itemsW 2 0))
  else if req = ⟨"GET", findUsersPathAt "email" "a@b.c" 2, none⟩ then
    .success (.json (pageObj itemsW 2 2))
  else .otherError "unexpected request"

/-- Concrete backend serving itemsW to find_group for one displayName query. -/
def envFindGroupW : NetEnv := fun req =>
  if req = ⟨"GET", findGroupPathAt "Engineering" 0, none⟩ then
    .success (.json (pageObj itemsW 2 0))
  else if req = ⟨"GET", findGroupPathAt "Engineering" 2, none⟩ then
    .success (.json (pageObj itemsW 2 2))
  else .otherError "unexpected request"

/-- Concrete backend whose successful response lacks the Resources key. -/
def envNoResourcesW : NetEnv := fun _ => .success (.json (.obj [("totalResults", .num 0)]))

/-- Concrete backend whose successful response lacks the totalResults key. -/
def envNoTotalW : NetEnv := fun _ => .success (.json (.obj [("Resources", .arr [])]))

/-- Concrete page-well-formed backend reporting an empty collection. -/
def envWFW : NetEnv := fun _ =>
  .success (.json (.obj [("Resources", .arr []), ("totalResults", .num 0)]))

/-- C9: for every invocation of send whose transport and HTTP status succeed,
an empty response body (as returned by DELETE) is normalized to the empty JSON
object rather than producing a decode error, and a nonempty body is decoded as
JSON: the result is (true, that value). -/
theorem catoscim_c9 (env : NetEnv) (cc : Nat) (req : Request) :
    (env req = .success .empty → CatoSCIM.send env cc req = (cc + 1, .ret true (.obj []))) ∧
    (∀ j, env req = .success (.json j) → CatoSCIM.send env cc req = (cc + 1, .ret true j)) := by
  constructor
  · intro h; simp [CatoSCIM.send, h]
  · intro j h; simp [CatoSCIM.send, h]

/-- Witness for C9 at concrete inputs: a DELETE-style empty body gives
(true, empty object), a user object body is returned decoded. -/
theorem catoscim_c9_witness :
    CatoSCIM.send envEmptyBodyW 0 ⟨"DELETE", "/Users/u1", none⟩ = (1, .ret true (.obj [])) ∧
    CatoSCIM.send envUserObjW 3 ⟨"GET", "/Users/u1", none⟩
      = (4, .ret true (.obj [("id", .str "u1")])) :=
  ⟨(catoscim_c9 envEmptyBodyW 0 ⟨"DELETE", "/Users/u1", none⟩).1 rfl,
   (catoscim_c9 envUserObjW 3 ⟨"GET", "/Users/u1", none⟩).2 _ rfl⟩

/-- C5: a transport success carrying a non-2xx HTTP status makes send, and
hence every delegating operation, return (false, an object with the status
code and the response body text); in particular get_user applied to abc
against a service answering 404 returns (false, status 404 and the body). -/
theorem catoscim_c5 (env : NetEnv) (cc : Nat) :
    (∀ req (code : Int) (body : String), env req = .httpError code body →
       CatoSCIM.send env cc req
         = (cc + 1, .ret false (.obj [("status", .num code), ("error", .str body)]))) ∧
    (∀ body : String, env ⟨"GET", "/Users/abc", none⟩ = .httpError 404 body →
       CatoSCIM.get_user "abc" env cc
         = (cc + 1, .ret false (.obj [("status", .num 404), ("error", .str body)]))) := by
  constructor
  · intro req code body h; simp [CatoSCIM.send, h]
  · intro body h
    have hpath : ("/Users/" ++ "abc" : String) = "/Users/abc" := rfl
    simp only [CatoSCIM.get_user, hpath]
    simp [CatoSCIM.send, h]

/-- Witness for C5: a concrete 404 scenario for send and for get_user. -/
theorem catoscim_c5_witness :
    CatoSCIM.send env404W 0 ⟨"GET", "/Users/abc", none⟩
      = (1, .ret false (.obj [("status", .num 404), ("error", .str "Not Found")])) ∧
    CatoSCIM.get_user "abc" env404W 7
      = (8, .ret false (.obj [("status", .num 404), ("error", .str "Not Found")])) :=
  ⟨(catoscim_c5 env404W 0).1 ⟨"GET", "/Users/abc", none⟩ 404 "Not Found" rfl,
   (catoscim_c5 env404W 7).2 "Not Found" rfl⟩

/-- C4 as stated is false on the code: a 2xx response whose body is not valid
JSON is not recovered into (false, an error object); json.loads runs outside
the try/except (catoscim.py line 179) and its decode error propagates, so send
raises instead of returning a tuple. -/
theorem catoscim_c4_counterexample :
    CatoSCIM.send envMalformedW 0 ⟨"GET", "/Users/u1", none⟩
      = (1, .raised "JSONDecodeError: Expecting value") ∧
    (CatoSCIM.send envMalformedW 0 ⟨"GET", "/Users/u1", none⟩).2
      ≠ .ret false (.obj [("error", .str "JSONDecodeError: Expecting value")]) :=
  ⟨rfl, by decide⟩

/-- C4 amended: failures raised inside the guarded network phase other than
HTTP and transport errors are recovered into (false, an object with the
stringified cause), including failures of request construction itself; but a
response body on a successful transport that is not valid JSON is not
recovered: send raises the decode error to its caller. -/
theorem catoscim_c4_amended (env : NetEnv) (cc : Nat) (req : Request) :
    (∀ msg, env req = .otherError msg →
       CatoSCIM.send env cc req = (cc + 1, .ret false (.obj [("error", .str msg)]))) ∧
    (∀ msg, env req = .constructError msg →
       CatoSCIM.send env cc req = (cc, .ret false (.obj [("error", .str msg)]))) ∧
    (env req = .success .malformed →
       CatoSCIM.send env cc req = (cc + 1, .raised "JSONDecodeError: Expecting value")) := by
  refine ⟨fun msg h => ?_, fun msg h => ?_, fun h => ?_⟩ <;> simp [CatoSCIM.send, h]

/-- Witness for the amended C4: a concrete unexpected-exception scenario is
recovered into a tuple, a concrete malformed-JSON scenario raises. -/
theorem catoscim_c4_amended_witness :
    CatoSCIM.send envBoomW 0 ⟨"GET", "/Users", none⟩
      = (1, .ret false (.obj [("error", .str "connection closed unexpectedly")])) ∧
    CatoSCIM.send envMalformedW 2 ⟨"GET", "/Groups", none⟩
      = (3, .raised "JSONDecodeError: Expecting value") :=
  ⟨(catoscim_c4_amended envBoomW 0 ⟨"GET", "/Users", none⟩).1 _ rfl,
   (catoscim_c4_amended envMalformedW 2 ⟨"GET", "/Groups", none⟩).2.2 rfl⟩

/-- C2 as stated is false on the code: when urllib.request.Request
construction itself raises (for example for a base URL without a scheme), the
generic except clause returns (false, an error object) yet the counter
increment on line 154 was never reached, so an invocation of send completes
with a failure result while call_count does not increase. -/
theorem catoscim_c2_counterexample :
    CatoSCIM.send envConstructFailW 0 ⟨"GET", "/Users", none⟩
      = (0, .ret false (.obj [("error", .str "unknown url type: abc/Users")])) ∧
    (CatoSCIM.send envConstructFailW 0 ⟨"GET", "/Users", none⟩).1 ≠ 0 + 1 :=
  ⟨rfl, by decide⟩

/-- C2 amended: call_count starts at 0 at construction and is never decreased
by send; it increases by exactly 1 on every invocation of send that reaches
the counter increment, which is every invocation except one whose request
construction itself raises, and those return failure without incrementing. -/
theorem catoscim_c2_amended :
    (∀ (env : NetEnv) (cc : Nat) (req : Request),
       (CatoSCIM.send env cc req).1
         = cc + (if CatoSCIM.bumpsCounter (env req) then 1 else 0)) ∧
    (∀ (env : NetEnv) (cc : Nat) (req : Request), cc ≤ (CatoSCIM.send env cc req).1) ∧
    (∀ (burl tok eUrl eTok : Option String) (vssl : Bool) (client : Client),
       CatoSCIM.init burl tok eUrl eTok vssl = .ok client → client.call_count = 0) := by
  refine ⟨?_, ?_, ?_⟩
  · intro env cc req
    rcases h : env req with msg | ⟨code, body⟩ | ⟨r, m⟩ | m | b
    · simp [CatoSCIM.send, CatoSCIM.bumpsCounter, h]
    · simp [CatoSCIM.send, CatoSCIM.bumpsCounter, h]
    · simp [CatoSCIM.send, CatoSCIM.bumpsCounter, h]
    · simp [CatoSCIM.send, CatoSCIM.bumpsCounter, h]
    · cases b <;> simp [CatoSCIM.send, CatoSCIM.bumpsCounter, h]
  · intro env cc req
    rcases h : env req with msg | ⟨code, body⟩ | ⟨r, m⟩ | m | b
    · simp [CatoSCIM.send, h]
    · simp [CatoSCIM.send, h]
    · simp [CatoSCIM.send, h]
    · simp [CatoSCIM.send, h]
    · cases b <;> simp [CatoSCIM.send, h]
  · intro burl tok eUrl eTok vssl client h
    simp only [CatoSCIM.init] at h
    split at h
    · simp at h
    · split at h
      · simp at h
      · cases h
        rfl

/-- Witness for the amended C2: concrete increment and concrete zero start. -/
theorem catoscim_c2_amended_witness :
    (CatoSCIM.send envBoomW 5 ⟨"GET", "/Users", none⟩).1
      = 5 + (if CatoSCIM.bumpsCounter (envBoomW ⟨"GET", "/Users", none⟩) then 1 else 0) ∧
    Client.call_count ⟨"https://scim.example.com", "tok", true, 0⟩ = 0 :=
  ⟨catoscim_c2_amended.1 envBoomW 5 ⟨"GET", "/Users", none⟩,
   catoscim_c2_amended.2.2 (some "https://scim.example.com") (some "tok") none none true
     ⟨"https://scim.example.com", "tok", true, 0⟩ (by rfl)⟩

/-- C6 as stated is false on the code: with the base URL supplied explicitly
as the empty string and the token supplied, both required values are present
as arguments, yet construction raises, because Python truthiness treats the
empty string like an absent value (catoscim.py lines 78-84). -/
theorem catoscim_c6_counterexample :
    CatoSCIM.init (some "") (some "token123") none none true
      = .error "SCIM URL must be provided either as parameter or via CATO_SCIM_URL environment variable" := by
  rfl

/-- C6 amended: construction fails exactly when the resolved base URL (the
explicit argument when truthy, otherwise the environment variable) is absent
or empty, or likewise the resolved token, empty strings counting as absent;
otherwise it succeeds with the resolved values, the given SSL flag, and
call_count 0, issuing no request. -/
theorem catoscim_c6_amended (burl tok eUrl eTok : Option String) (vssl : Bool) :
    ((∃ msg, CatoSCIM.init burl tok eUrl eTok vssl = .error msg)
       ↔ (pyTruthy (pyOr burl eUrl) = false ∨ pyTruthy (pyOr tok eTok) = false)) ∧
    (∀ client, CatoSCIM.init burl tok eUrl eTok vssl = .ok client →
       client = ⟨(pyOr burl eUrl).getD "", (pyOr tok eTok).getD "", vssl, 0⟩) := by
  simp only [CatoSCIM.init]
  cases hb : pyTruthy (pyOr burl eUrl) <;> cases ht : pyTruthy (pyOr tok eTok) <;> simp

/-- Witness for the amended C6: a concrete successful construction resolves to
the supplied values with call_count 0. -/
theorem catoscim_c6_amended_witness :
    (⟨"https://scim.example.com", "tok", true, 0⟩ : Client)
      = ⟨(pyOr (some "https://scim.example.com") none).getD "",
         (pyOr (some "tok") none).getD "", true, 0⟩ :=
  (catoscim_c6_amended (some "https://scim.example.com") (some "tok") none none true).2
    ⟨"https://scim.example.com", "tok", true, 0⟩ (by rfl)

/-- C8: add_members, remove_members and rename_group each issue exactly one
PATCH request to the Groups member path, whose body carries the PatchOp schema
URN and an Operations array holding exactly one operation with the documented
op, path and value, and each returns the result of send verbatim. -/
theorem catoscim_c8 (groupid new_name op path : String) (members value : JSON)
    (env : NetEnv) (cc : Nat) :
    (CatoSCIM.add_members groupid members env cc
       = CatoSCIM.send env cc
           ⟨"PATCH", "/Groups/" ++ groupid, some (patchOpBody "add" "members" members)⟩) ∧
    (CatoSCIM.remove_members groupid members env cc
       = CatoSCIM.send env cc
           ⟨"PATCH", "/Groups/" ++ groupid, some (patchOpBody "remove" "members" members)⟩) ∧
    (CatoSCIM.rename_group groupid new_name env cc
       = CatoSCIM.send env cc
           ⟨"PATCH", "/Groups/" ++ groupid,
            some (patchOpBody "replace" "displayName" (.str new_name))⟩) ∧
    (patchOpBody op path value).get "schemas"
       = some (.arr [.str "urn:ietf:params:scim:api:messages:2.0:PatchOp"]) ∧
    (∃ ops, (patchOpBody op path value).get "Operations" = some (.arr ops) ∧
       ops.length = 1 ∧
       ops = [.obj [("op", .str op), ("path", .str path), ("value", value)]]) :=
  ⟨rfl, rfl, rfl, rfl, ⟨_, rfl, rfl, rfl⟩⟩

/-- The password alphabet has the 62 letter and digit characters. -/
theorem passwordAlphabet_length : passwordAlphabet.length = 62 := by decide

/-- The password alphabet has no repeated characters. -/
theorem passwordAlphabet_nodup : passwordAlphabet.Nodup := by decide

/-- A generated password has exactly ten characters. -/
theorem genPassword_length (choice : Nat → Fin 62) :
    (CatoSCIM.genPassword choice).length = 10 := by
  simp [CatoSCIM.genPassword, String.length]

/-- Every character of a generated password comes from the alphabet. -/
theorem genPassword_mem (choice : Nat → Fin 62) :
    ∀ c, c ∈ (CatoSCIM.genPassword choice).data → c ∈ passwordAlphabet := by
  intro c hc
  simp only [CatoSCIM.genPassword, List.mem_map] at hc
  obtain ⟨i, _, hi⟩ := hc
  exact hi ▸ List.get_mem _ _ _

/-- Equal generated passwords come from choice oracles agreeing on the ten
indices the generator reads. -/
theorem genPassword_inj (c1 c2 : Nat → Fin 62)
    (h : CatoSCIM.genPassword c1 = CatoSCIM.genPassword c2) :
    ∀ i, i < 10 → c1 i = c2 i := by
  intro i hi
  have hdata : (CatoSCIM.genPassword c1).data = (CatoSCIM.genPassword c2).data := by rw [h]
  simp only [CatoSCIM.genPassword] at hdata
  have hpt := List.map_inj_left.mp hdata i (by simp [hi])
  have hval : ((c1 i).cast (by rfl : (62 : Nat) = passwordAlphabet.length)).val
      = ((c2 i).cast (by rfl : (62 : Nat) = passwordAlphabet.length)).val := by
    have := (passwordAlphabet_nodup.get_inj_iff).mp hpt
    exact congrArg Fin.val this
  exact Fin.ext hval

/-- Vector form of password injectivity. -/
theorem genPasswordVec_inj (v1 v2 : Fin 10 → Fin 62)
    (h : genPasswordVec v1 = genPasswordVec v2) : v1 = v2 := by
  funext j
  have := genPassword_inj _ _ h j.val j.isLt
  simpa [j.isLt] using this

/-- Among all pairs of choice vectors, the colliding ones are exactly the
diagonal: the collision fraction is one in 62 to the tenth. -/
theorem genPasswordVec_collision_count :
    (Finset.univ.filter (fun p : (Fin 10 → Fin 62) × (Fin 10 → Fin 62) =>
        genPasswordVec p.1 = genPasswordVec p.2)).card * 62 ^ 10
      = (Finset.univ : Finset ((Fin 10 → Fin 62) × (Fin 10 → Fin 62))).card := by
  have hfilter : (Finset.univ.filter (fun p : (Fin 10 → Fin 62) × (Fin 10 → Fin 62) =>
      genPasswordVec p.1 = genPasswordVec p.2))
      = (Finset.univ.filter (fun p : (Fin 10 → Fin 62) × (Fin 10 → Fin 62) => p.1 = p.2)) := by
    apply Finset.filter_congr
    intro p _
    constructor
    · intro h
      simp only [genPasswordVec_inj p.1 p.2 h]
    · intro h
      rw [h]
  have himg : (Finset.univ.filter (fun p : (Fin 10 → Fin 62) × (Fin 10 → Fin 62) => p.1 = p.2))
      = Finset.image (fun a : Fin 10 → Fin 62 => (a, a)) Finset.univ := by
    ext p
    simp only [Finset.mem_filter, Finset.mem_univ, true_and, Finset.mem_image]
    constructor
    · intro h
      exact ⟨p.1, by rw [Prod.ext_iff]; exact ⟨rfl, h⟩⟩
    · rintro ⟨a, ha⟩
      rw [← ha]
  have hinj : Function.Injective (fun a : Fin 10 → Fin 62 => (a, a)) := by
    intro a b h
    exact congrArg Prod.fst h
  rw [hfilter, himg, Finset.card_image_of_injective _ hinj, Finset.card_univ,
    Finset.card_univ, Fintype.card_prod, Fintype.card_fun, Fintype.card_fin, Fintype.card_fin]

/-- C7: when create_user is called with the password omitted, the password
placed in the POSTed user body is the generated one: a string of exactly ten
characters, each drawn from the 62 ASCII letters and digits, one secrets
choice per character; distinct choice sequences give distinct passwords, and
among all pairs of independent uniform choice sequences exactly one in 62 to
the tenth collides, a fraction below ten to the minus seventeenth. -/
theorem catoscim_c7 (choice : Nat → Fin 62)
    (email givenName familyName externalId : String) (active : Bool) :
    Option.bind (CatoSCIM.create_user_request email givenName familyName externalId
        none active choice).body (fun j => j.get "password")
      = some (.str (CatoSCIM.genPassword choice)) ∧
    (CatoSCIM.genPassword choice).length = 10 ∧
    (∀ c, c ∈ (CatoSCIM.genPassword choice).data → c ∈ passwordAlphabet) ∧
    (∀ choice2 : Nat → Fin 62,
       CatoSCIM.genPassword choice = CatoSCIM.genPassword choice2 →
       ∀ i, i < 10 → choice i = choice2 i) ∧
    ((Finset.univ.filter (fun p : (Fin 10 → Fin 62) × (Fin 10 → Fin 62) =>
         genPasswordVec p.1 = genPasswordVec p.2)).card * 62 ^ 10
       = (Finset.univ : Finset ((Fin 10 → Fin 62) × (Fin 10 → Fin 62))).card) ∧
    (10 ^ 17 : Nat) < 62 ^ 10 :=
  ⟨rfl, genPassword_length choice, genPassword_mem choice,
   fun choice2 h => genPassword_inj choice choice2 h,
   genPasswordVec_collision_count, by norm_num⟩

/-- Witness for C7 at a concrete choice oracle and user. -/
theorem catoscim_c7_witness :
    (CatoSCIM.genPassword choiceZeroW).length = 10 ∧
    Option.bind (CatoSCIM.create_user_request "a@b.c" "A" "B" "ext1" none true
        choiceZeroW).body (fun j => j.get "password")
      = some (.str (CatoSCIM.genPassword choiceZeroW)) :=
  ⟨(catoscim_c7 choiceZeroW "a@b.c" "A" "B" "ext1" true).2.1,
   (catoscim_c7 choiceZeroW "a@b.c" "A" "B" "ext1" true).1⟩

/-- One successful iteration of the pagination loop: the next request gets a
well-formed page, which is appended; the loop stops or recurses according to
the totalResults comparison. -/
theorem pagedLoop_step_success (env : NetEnv) (pathAt : Nat → String)
    (fuel cc : Nat) (acc xs : List JSON) (n : Int) (resp : JSON)
    (henv : env ⟨"GET", pathAt acc.length, none⟩ = .success (.json resp))
    (hres : resp.get "Resources" = some (.arr xs))
    (htot : resp.get "totalResults" = some (.num n)) :
    CatoSCIM.pagedLoop env pathAt (fuel + 1) cc acc =
      if n ≤ ((acc ++ xs).length : Int) then
        ⟨.ret true (.arr (acc ++ xs)), cc + 1, [⟨"GET", pathAt acc.length, none⟩]⟩
      else
        ⟨(CatoSCIM.pagedLoop env pathAt fuel (cc + 1) (acc ++ xs)).result,
         (CatoSCIM.pagedLoop env pathAt fuel (cc + 1) (acc ++ xs)).callCount,
         ⟨"GET", pathAt acc.length, none⟩ ::
           (CatoSCIM.pagedLoop env pathAt fuel (cc + 1) (acc ++ xs)).trace⟩ := by
  simp only [CatoSCIM.pagedLoop, CatoSCIM.send, henv, hres, htot, JSON.pyElems]

/-- Running the pagination loop against a backend that serves the collection
in order in pages of size P and consistently reports the collection length as
totalResults: with the first k pages already accumulated and j pages still to
fetch, exactly j further GET requests go out, at startIndex values kP, (k+1)P
and so on, the final payload is the full collection, and the counter rises by
one per request. -/
theorem pagedLoop_pages_aux (env : NetEnv) (pathAt : Nat → String)
    (items : List JSON) (P : Nat) :
    ∀ (j : Nat), 1 ≤ j → ∀ (k fuel cc : Nat),
      j ≤ fuel →
      k * P ≤ items.length →
      items.length ≤ (k + j) * P →
      ((k + j - 1) * P < items.length ∨ (items.length = 0 ∧ j = 1)) →
      (∀ i, i < j → env ⟨"GET", pathAt ((k + i) * P), none⟩
          = .success (.json (pageObj items P ((k + i) * P)))) →
      CatoSCIM.pagedLoop env pathAt fuel cc (items.take (k * P))
        = ⟨.ret true (.arr items), cc + j,
           (List.range j).map (fun i => (⟨"GET", pathAt ((k + i) * P), none⟩ : Request))⟩ := by
  intro j
  induction j with
  | zero => omega
  | succ j ih =>
    intro _ k fuel cc hfuel hk hN hmin henv
    obtain ⟨f, rfl⟩ : ∃ f, fuel = f + 1 := ⟨fuel - 1, by omega⟩
    have hlen : (items.take (k * P)).length = k * P := by
      rw [List.length_take]; omega
    have henv0 : env ⟨"GET", pathAt ((items.take (k * P)).length), none⟩
        = .success (.json (pageObj items P (k * P))) := by
      rw [hlen]
      have h0 := henv 0 (by omega)
      simpa using h0
    have hstep := pagedLoop_step_success env pathAt f cc (items.take (k * P))
      ((items.drop (k * P)).take P) (items.length : Int) (pageObj items P (k * P))
      henv0 rfl rfl
    have hacc : items.take (k * P) ++ (items.drop (k * P)).take P
        = items.take ((k + 1) * P) := by
      rw [Nat.succ_mul, List.take_add]
    rw [hacc, hlen] at hstep
    rcases Nat.eq_zero_or_pos j with hj0 | hjpos
    · subst hj0
      have hle : items.length ≤ (k + 1) * P := by simpa using hN
      have hlen2 : (items.take ((k + 1) * P)).length = items.length := by
        rw [List.length_take]; omega
      have htake : items.take ((k + 1) * P) = items := List.take_of_length_le hle
      rw [hstep, if_pos (by simp [hlen2]), htake]
      simp [List.range_succ]
    · have hmin2 : (k + j) * P < items.length := by
        rcases hmin with h | ⟨h1, h2⟩
        · have e : k + (j + 1) - 1 = k + j := by omega
          rwa [e] at h
        · omega
      have hk1 : (k + 1) * P ≤ (k + j) * P := Nat.mul_le_mul_right P (by omega)
      have hlt : (k + 1) * P < items.length := lt_of_le_of_lt hk1 hmin2
      have hlen2 : (items.take ((k + 1) * P)).length = (k + 1) * P := by
        rw [List.length_take]; omega
      have hcond : ¬ ((items.length : Int) ≤ ((items.take ((k + 1) * P)).length : Int)) := by
        rw [hlen2]
        exact not_le.mpr (by exact_mod_cast hlt)
      have hrest := ih hjpos (k + 1) f (cc + 1) (by omega) (le_of_lt hlt)
        (by have e : k + 1 + j = k + (j + 1) := by omega
            rw [e]; exact hN)
        (by left
            have e : k + 1 + j - 1 = k + j := by omega
            rw [e]; exact hmin2)
        (by intro i hi
            have h2 := henv (i + 1) (by omega)
            have e : k + (i + 1) = k + 1 + i := by omega
            rw [e] at h2; exact h2)
      have htr : (List.range (j + 1)).map
            (fun i => (⟨"GET", pathAt ((k + i) * P), none⟩ : Request))
          = ⟨"GET", pathAt (k * P), none⟩ ::
            (List.range j).map
              (fun i => (⟨"GET", pathAt ((k + 1 + i) * P), none⟩ : Request)) := by
        rw [List.range_succ_eq_map, List.map_cons, List.map_map]
        refine congrArg₂ List.cons (by simp) ?_
        apply List.map_congr_left
        intro a ha
        simp only [Function.comp_apply]
        have e : k + (a + 1) = k + 1 + a := by omega
        rw [e]
      rw [hstep, if_neg hcond, hrest, htr]
      simp only [PagedOut.mk.injEq]
      exact ⟨trivial, by omega, trivial⟩

/-- Characterisation of pagesNeeded: it is at least one, enough pages of size
P to cover the collection, and minimal. -/
theorem pagesNeeded_spec (total P : Nat) (hP : 0 < P) :
    1 ≤ pagesNeeded total P ∧
    total ≤ pagesNeeded total P * P ∧
    ((pagesNeeded total P - 1) * P < total ∨ (total = 0 ∧ pagesNeeded total P = 1)) := by
  unfold pagesNeeded
  rcases Nat.eq_zero_or_pos total with h0 | hpos
  · subst h0; simp
  · rw [if_neg (by omega)]
    have hdm : P * ((total + P - 1) / P) + (total + P - 1) % P = total + P - 1 :=
      Nat.div_add_mod _ _
    have hr : (total + P - 1) % P < P := Nat.mod_lt _ hP
    have hq1 : 1 ≤ (total + P - 1) / P := by
      rcases Nat.eq_zero_or_pos ((total + P - 1) / P) with h | h
      · rw [h, Nat.mul_zero] at hdm; omega
      · exact h
    have hsub : ((total + P - 1) / P - 1) * P = P * ((total + P - 1) / P) - P := by
      rw [Nat.sub_mul, one_mul, Nat.mul_comm]
    have hPq : P ≤ P * ((total + P - 1) / P) := Nat.le_mul_of_pos_right P hq1
    obtain ⟨M, hMdef⟩ : ∃ M, P * ((total + P - 1) / P) = M := ⟨_, rfl⟩
    rw [hMdef] at hdm hsub hPq
    refine ⟨hq1, ?_, Or.inl ?_⟩
    · rw [Nat.mul_comm, hMdef]
      omega
    · rw [hsub]
      omega

/-- The pagination loop, started empty against a consistent paged backend,
returns the whole collection after exactly pagesNeeded requests at startIndex
values 0, P, 2P and so on, bumping the counter once per request. -/
theorem pagedLoop_run_consistent (env : NetEnv) (pathAt : Nat → String)
    (items : List JSON) (P fuel cc : Nat) (hP : 0 < P)
    (hfuel : pagesNeeded items.length P ≤ fuel)
    (henv : ∀ k, k < pagesNeeded items.length P →
       env ⟨"GET", pathAt (k * P), none⟩ = .success (.json (pageObj items P (k * P)))) :
    CatoSCIM.pagedLoop env pathAt fuel cc []
      = ⟨.ret true (.arr items), cc + pagesNeeded items.length P,
         (List.range (pagesNeeded items.length P)).map
           (fun k => (⟨"GET", pathAt (k * P), none⟩ : Request))⟩ := by
  obtain ⟨h1, h2, h3⟩ := pagesNeeded_spec items.length P hP
  have haux := pagedLoop_pages_aux env pathAt items P (pagesNeeded items.length P) h1
    0 fuel cc hfuel (by simp) (by simpa using h2) (by simpa using h3)
    (by intro i hi; simpa using henv i hi)
  rw [Nat.zero_mul, List.take_zero] at haux
  rw [haux]
  simp only [PagedOut.mk.injEq]
  refine ⟨trivial, trivial, ?_⟩
  apply List.map_congr_left
  intro a _
  simp

/-- C1: each paginated operation, run against a backend that consistently
reports totalResults as the collection size and serves the collection in
order in pages of size P, returns (true, the whole collection in server
order), issues exactly pagesNeeded requests (the page count rounded up, and
one single request for an empty collection), and every request carries a
startIndex equal to the number of items already accumulated, namely 0, P, 2P
and so on; the call counter rises by one per request. -/
theorem catoscim_c1 (items : List JSON) (P fuel cc : Nat)
    (field value displayName : String) (envU envG envFU envFG : NetEnv)
    (hP : 0 < P)
    (hfuel : pagesNeeded items.length P ≤ fuel)
    (henvU : ∀ k, k < pagesNeeded items.length P →
       envU ⟨"GET", usersPathAt (k * P), none⟩
         = .success (.json (pageObj items P (k * P))))
    (henvG : ∀ k, k < pagesNeeded items.length P →
       envG ⟨"GET", groupsPathAt (k * P), none⟩
         = .success (.json (pageObj items P (k * P))))
    (henvFU : ∀ k, k < pagesNeeded items.length P →
       envFU ⟨"GET", findUsersPathAt field value (k * P), none⟩
         = .success (.json (pageObj items P (k * P))))
    (henvFG : ∀ k, k < pagesNeeded items.length P →
       envFG ⟨"GET", findGroupPathAt displayName (k * P), none⟩
         = .success (.json (pageObj items P (k * P)))) :
    CatoSCIM.get_users envU fuel cc
      = ⟨.ret true (.arr items), cc + pagesNeeded items.length P,
         (List.range (pagesNeeded items.length P)).map
           (fun k => (⟨"GET", usersPathAt (k * P), none⟩ : Request))⟩ ∧
    CatoSCIM.get_groups envG fuel cc
      = ⟨.ret true (.arr items), cc + pagesNeeded items.length P,
         (List.range (pagesNeeded items.length P)).map
           (fun k => (⟨"GET", groupsPathAt (k * P), none⟩ : Request))⟩ ∧
    CatoSCIM.find_users field value envFU fuel cc
      = ⟨.ret true (.arr items), cc + pagesNeeded items.length P,
         (List.range (pagesNeeded items.length P)).map
           (fun k => (⟨"GET", findUsersPathAt field value (k * P), none⟩ : Request))⟩ ∧
    CatoSCIM.find_group displayName envFG fuel cc
      = ⟨.ret true (.arr items), cc + pagesNeeded items.length P,
         (List.range (pagesNeeded items.length P)).map
           (fun k => (⟨"GET", findGroupPathAt displayName (k * P), none⟩ : Request))⟩ :=
  ⟨pagedLoop_run_consistent envU usersPathAt items P fuel cc hP hfuel henvU,
   pagedLoop_run_consistent envG groupsPathAt items P fuel cc hP hfuel henvG,
   pagedLoop_run_consistent envFU (findUsersPathAt field value) items P fuel cc hP hfuel henvFU,
   pagedLoop_run_consistent envFG (findGroupPathAt displayName) items P fuel cc hP hfuel henvFG⟩

/-- Witness for C1: three items served in pages of two to all four operations,
two requests each, at startIndex 0 then 2. -/
theorem catoscim_c1_witness :
    CatoSCIM.get_users envUsersW 2 0
      = ⟨.ret true (.arr itemsW), 0 + pagesNeeded itemsW.length 2,
         (List.range (pagesNeeded itemsW.length 2)).map
           (fun k => (⟨"GET", usersPathAt (k * 2), none⟩ : Request))⟩ ∧
    CatoSCIM.get_groups envGroupsW 2 0
      = ⟨.ret true (.arr itemsW), 0 + pagesNeeded itemsW.length 2,
         (List.range (pagesNeeded itemsW.length 2)).map
           (fun k => (⟨"GET", groupsPathAt (k * 2), none⟩ : Request))⟩ ∧
    CatoSCIM.find_users "email" "a@b.c" envFindUsersW 2 0
      = ⟨.ret true (.arr itemsW), 0 + pagesNeeded itemsW.length 2,
         (List.range (pagesNeeded itemsW.length 2)).map
           (fun k => (⟨"GET", findUsersPathAt "email" "a@b.c" (k * 2), none⟩ : Request))⟩ ∧
    CatoSCIM.find_group "Engineering" envFindGroupW 2 0
      = ⟨.ret true (.arr itemsW), 0 + pagesNeeded itemsW.length 2,
         (List.range (pagesNeeded itemsW.length 2)).map
           (fun k => (⟨"GET", findGroupPathAt "Engineering" (k * 2), none⟩ : Request))⟩ :=
  catoscim_c1 itemsW 2 2 0 "email" "a@b.c" "Engineering"
    envUsersW envGroupsW envFindUsersW envFindGroupW
    (by decide) (by decide) (by decide) (by decide) (by decide) (by decide)

/-- C3: the four paginated operations all run the shared loop, and whenever a
page request comes back as a failure the loop immediately returns false with
exactly the error payload send produced for that request, whatever was already
accumulated: the accumulator does not reach the caller. -/
theorem catoscim_c3 :
    (∀ (env : NetEnv) (pathAt : Nat → String) (fuel cc : Nat) (acc : List JSON) (p : JSON),
       sendErrorPayload (env ⟨"GET", pathAt acc.length, none⟩) = some p →
       CatoSCIM.pagedLoop env pathAt (fuel + 1) cc acc
         = ⟨.ret false p,
            (CatoSCIM.send env cc ⟨"GET", pathAt acc.length, none⟩).1,
            [⟨"GET", pathAt acc.length, none⟩]⟩) ∧
    (∀ env fuel cc, CatoSCIM.get_users env fuel cc
       = CatoSCIM.pagedLoop env usersPathAt fuel cc []) ∧
    (∀ env fuel cc, CatoSCIM.get_groups env fuel cc
       = CatoSCIM.pagedLoop env groupsPathAt fuel cc []) ∧
    (∀ field value env fuel cc, CatoSCIM.find_users field value env fuel cc
       = CatoSCIM.pagedLoop env (findUsersPathAt field value) fuel cc []) ∧
    (∀ displayName env fuel cc, CatoSCIM.find_group displayName env fuel cc
       = CatoSCIM.pagedLoop env (findGroupPathAt displayName) fuel cc []) := by
  refine ⟨?_, fun _ _ _ => rfl, fun _ _ _ => rfl, fun _ _ _ _ _ => rfl, fun _ _ _ _ => rfl⟩
  intro env pathAt fuel cc acc p hp
  rcases h : env ⟨"GET", pathAt acc.length, none⟩ with m | ⟨code, body⟩ | ⟨r, m⟩ | m | b
  · rw [h] at hp
    simp only [sendErrorPayload, Option.some.injEq] at hp
    subst hp
    simp [CatoSCIM.pagedLoop, CatoSCIM.send, h]
  · rw [h] at hp
    simp only [sendErrorPayload, Option.some.injEq] at hp
    subst hp
    simp [CatoSCIM.pagedLoop, CatoSCIM.send, h]
  · rw [h] at hp
    simp only [sendErrorPayload, Option.some.injEq] at hp
    subst hp
    simp [CatoSCIM.pagedLoop, CatoSCIM.send, h]
  · rw [h] at hp
    simp only [sendErrorPayload, Option.some.injEq] at hp
    subst hp
    simp [CatoSCIM.pagedLoop, CatoSCIM.send, h]
  · rw [h] at hp
    simp [sendErrorPayload] at hp

/-- Witness for C3: the loop holding one already-accumulated item meets an
HTTP 500 on its next page and returns only the error payload. -/
theorem catoscim_c3_witness :
    CatoSCIM.pagedLoop envFail500W usersPathAt 1 5 [.str "u1"]
      = ⟨.ret false (.obj [("status", .num 500), ("error", .str "Internal Server Error")]),
         6, [⟨"GET", usersPathAt 1, none⟩]⟩ :=
  catoscim_c3.1 envFail500W usersPathAt 0 5 [.str "u1"]
    (.obj [("status", .num 500), ("error", .str "Internal Server Error")]) (by decide)

/-- C10: the paginated operations return a result tuple only when every
successful page response object carries both a Resources key holding a
sequence and a totalResults key holding an integer; against a page-well-formed
backend no exception escapes, while a successful response lacking either key
makes the dictionary lookup fail and every one of the four operations ends in
an uncaught exception instead of a result tuple. -/
theorem catoscim_c10 :
    (∀ (env : NetEnv) (pathAt : Nat → String), PageWellFormed env →
       ∀ (fuel cc : Nat) (acc : List JSON) (msg : String),
         (CatoSCIM.pagedLoop env pathAt fuel cc acc).result ≠ .exn msg) ∧
    (CatoSCIM.get_users envNoResourcesW 1 0).result = .exn "KeyError: Resources" ∧
    (CatoSCIM.get_groups envNoResourcesW 1 0).result = .exn "KeyError: Resources" ∧
    (CatoSCIM.find_users "email" "a@b.c" envNoResourcesW 1 0).result
      = .exn "KeyError: Resources" ∧
    (CatoSCIM.find_group "Engineering" envNoResourcesW 1 0).result
      = .exn "KeyError: Resources" ∧
    (CatoSCIM.get_users envNoTotalW 1 0).result = .exn "KeyError: totalResults" ∧
    (CatoSCIM.get_groups envNoTotalW 1 0).result = .exn "KeyError: totalResults" ∧
    (CatoSCIM.find_users "email" "a@b.c" envNoTotalW 1 0).result
      = .exn "KeyError: totalResults" ∧
    (CatoSCIM.find_group "Engineering" envNoTotalW 1 0).result
      = .exn "KeyError: totalResults" := by
  refine ⟨?_, by decide, by decide, by decide, by decide, by decide, by decide, by decide,
    by decide⟩
  intro env pathAt hwf fuel
  induction fuel with
  | zero =>
    intro cc acc msg
    simp [CatoSCIM.pagedLoop]
  | succ f ih =>
    intro cc acc msg
    rcases h : env ⟨"GET", pathAt acc.length, none⟩ with m | ⟨code, body⟩ | ⟨r, m⟩ | m | b
    · simp [CatoSCIM.pagedLoop, CatoSCIM.send, h]
    · simp [CatoSCIM.pagedLoop, CatoSCIM.send, h]
    · simp [CatoSCIM.pagedLoop, CatoSCIM.send, h]
    · simp [CatoSCIM.pagedLoop, CatoSCIM.send, h]
    · obtain ⟨j, xs, n, hb, hres, htot⟩ := hwf _ b h
      subst hb
      simp only [CatoSCIM.pagedLoop, CatoSCIM.send, h, hres, htot, JSON.pyElems]
      split
      · simp
      · simpa using ih (cc + 1) (acc ++ xs) msg

/-- Witness for C10 against a concrete page-well-formed backend. -/
theorem catoscim_c10_witness :
    (CatoSCIM.pagedLoop envWFW usersPathAt 1 0 []).result ≠ .exn "KeyError: Resources" :=
  catoscim_c10.1 envWFW usersPathAt
    (by intro req b hb
        simp only [envWFW] at hb
        injection hb with h2
        subst h2
        exact ⟨_, [], 0, rfl, rfl, rfl⟩)
    1 0 [] "KeyError: Resources"
